import Mathlib

/-!
Shallow embedding of the core of src/predict.py (FlowTTS BYOK Replicate
wrapper): the SSE stream-collection loop inside Predictor.predict
(lines 173-212), the pcm_to_wav container encoder (lines 32-53), and the
error-classification except block (lines 186-201).

Bytes are modelled as Nat (values 0..255), byte strings as List Nat,
Python str as Lean String.
-/

/-- Value of a character in the standard base64 alphabet, none for any
other character.  Models the lookup table used by binascii.a2b_base64. -/
def b64charVal (c : Char) : Option Nat :=
  if 'A' ≤ c ∧ c ≤ 'Z' then some (c.toNat - 65)
  else if 'a' ≤ c ∧ c ≤ 'z' then some (c.toNat - 97 + 26)
  else if '0' ≤ c ∧ c ≤ '9' then some (c.toNat - 48 + 52)
  else if c = '+' then some 62
  else if c = '/' then some 63
  else none

/-- Decode a list of 6-bit values into bytes, 4 values to 3 bytes, with a
trailing group of 2 or 3 values giving 1 or 2 bytes. -/
def decodeGroups : List Nat → List Nat
  | a :: b :: c :: d :: rest =>
      (a * 4 + b / 16) :: ((b % 16) * 16 + c / 4) :: ((c % 4) * 64 + d) :: decodeGroups rest
  | [a, b, c] => [a * 4 + b / 16, (b % 16) * 16 + c / 4]
  | [a, b] => [a * 4 + b / 16]
  | _ => []

/-- Models Python base64.b64decode with validate=False (as called at
src/predict.py line 181) on inputs whose padding characters, if any, are
trailing: characters outside the base64 alphabet are discarded, the data
characters before the first padding character are decoded in 6-bit groups,
and a data-character count congruent to 1 mod 4, or to 2 or 3 mod 4 with no
padding present, raises binascii.Error (modelled as none).  none models the
raised exception; note binascii.Error is absent from the except tuple at
src/predict.py line 184. -/
def b64decode (s : String) : Option (List Nat) :=
  let ds := (s.toList.takeWhile (fun c => !(c == '='))).filterMap b64charVal
  if ds.length % 4 == 1 then none
  else if ds.length % 4 == 0 then some (decodeGroups ds)
  else if s.toList.contains '=' then some (decodeGroups ds)
  else none

/-- Little-endian encoding of a 16-bit field, as written by the wave module
via struct packing. -/
def le2 (x : Nat) : List Nat := [x % 256, x / 256 % 256]

/-- Little-endian encoding of a 32-bit field, as written by the wave module
via struct packing. -/
def le4 (x : Nat) : List Nat :=
  [x % 256, x / 256 % 256, x / 65536 % 256, x / 16777216 % 256]

/-- Read back a little-endian field as a Nat. -/
def readLE (bs : List Nat) : Nat :=
  match bs with
  | [] => 0
  | b :: t => b + 256 * readLE t

/-- Models pcm_to_wav at src/predict.py lines 32-53: the byte sequence the
Python wave module emits for setnchannels channels, setsampwidth
sample_width, setframerate sample_rate and one writeframes of pcm_data.
The wave module patches the header on close, so the RIFF size field is
36 + len(pcm_data) and the data size field is len(pcm_data), with the
payload written verbatim and unpadded. -/
def pcm_to_wav (pcm_data : List Nat) (sample_rate channels sample_width : Nat) :
    List Nat :=
  [82, 73, 70, 70] ++ le4 (36 + pcm_data.length) ++
  [87, 65, 86, 69] ++
  [102, 109, 116, 32] ++ le4 16 ++ le2 1 ++ le2 channels ++
  le4 sample_rate ++ le4 (sample_rate * channels * sample_width) ++
  le2 (channels * sample_width) ++ le2 (sample_width * 8) ++
  [100, 97, 116, 97] ++ le4 pcm_data.length ++ pcm_data

/-- Parsed JSON payload of one SSE event, per the schema read at
src/predict.py lines 180-182: ty models the Type field, audio the Audio
field, isEnd the truthiness of the IsEnd field. -/
structure EventData where
  ty : Option String
  audio : Option String
  isEnd : Bool
deriving DecidableEq

/-- One raw item of the SSE response iterated at src/predict.py line 176:
other models an item that is not a dict or lacks a data key (line 177),
badJson an item whose data fails json.loads or raises KeyError (caught at
line 184), parsed an item whose data parses to a JSON object. -/
inductive RawEvent where
  | other
  | badJson
  | parsed (d : EventData)
deriving DecidableEq

/-- The closed error taxonomy of the except block at src/predict.py
lines 186-201. -/
inductive ErrorKind where
  | authFailure
  | invalidParameter
  | rateLimited
  | unknownUpstreamError
deriving DecidableEq

/-- Does needle occur at the start of haystack. -/
def listStartsWith : List Char → List Char → Bool
  | _, [] => true
  | [], _ :: _ => false
  | a :: as, b :: bs => a == b && listStartsWith as bs

/-- Does needle occur anywhere inside haystack: models the Python
substring test written with the in operator at src/predict.py
lines 189, 194, 196. -/
def containsSub (haystack needle : List Char) : Bool :=
  match haystack with
  | [] => needle.isEmpty
  | _ :: t => listStartsWith haystack needle || containsSub t needle

/-- Models the except block at src/predict.py lines 186-201: keyword
classification of str(e) into an ErrorKind and the message of the
RuntimeError raised for it. -/
def classifyError (error_msg : String) : ErrorKind × String :=
  if containsSub error_msg.toList "AuthFailure".toList then
    (ErrorKind.authFailure,
     "Authentication failed. Please check your SecretId, SecretKey, and SdkAppId.")
  else if containsSub error_msg.toList "InvalidParameter".toList then
    (ErrorKind.invalidParameter, "Invalid parameter: " ++ error_msg)
  else if containsSub error_msg.toList "RequestLimitExceeded".toList then
    (ErrorKind.rateLimited, "Rate limit exceeded. Please try again later.")
  else
    (ErrorKind.unknownUpstreamError, "TTS API error: " ++ error_msg)

/-- Models the for loop at src/predict.py lines 176-185 with accumulator
audio_chunks: other and badJson items are skipped, a parsed item whose
Type is audio with a truthy Audio field has the Audio base64-decoded and
appended, then a truthy IsEnd breaks the loop.  A base64 decode failure is
a binascii.Error, which the inner except at line 184 does not catch, so it
aborts the loop and reaches the outer except at line 186: modelled as
Except.error carrying str(e). -/
def collectLoop : List RawEvent → List (List Nat) → Except String (List (List Nat))
  | [], acc => Except.ok acc
  | RawEvent.other :: rest, acc => collectLoop rest acc
  | RawEvent.badJson :: rest, acc => collectLoop rest acc
  | RawEvent.parsed d :: rest, acc =>
      if d.ty = some "audio" ∧ d.audio.getD "" ≠ "" then
        match b64decode (d.audio.getD "") with
        | none => Except.error "Incorrect padding"
        | some bs => if d.isEnd then Except.ok (acc ++ [bs])
                     else collectLoop rest (acc ++ [bs])
      else if d.isEnd then Except.ok acc else collectLoop rest acc

/-- True for a parsed event with a truthy IsEnd field. -/
def isEndEv : RawEvent → Bool
  | RawEvent.parsed d => d.isEnd
  | _ => false

/-- The prefix of the event sequence the loop consumes: everything up to
and including the first end-flagged parsed event, or the whole sequence if
there is none. -/
def consumed : List RawEvent → List RawEvent
  | [] => []
  | e :: rest => if isEndEv e then [e] else e :: consumed rest

/-- The decoded audio contents of an event, when it is an audio-bearing
event whose Audio field decodes. -/
def validAudio : RawEvent → Option (List Nat)
  | RawEvent.parsed d =>
      if d.ty = some "audio" ∧ d.audio.getD "" ≠ "" then
        b64decode (d.audio.getD "")
      else none
  | _ => none

/-- True for a parsed event with Type audio and a truthy Audio field. -/
def isAudioBearing : RawEvent → Bool
  | RawEvent.parsed d => decide (d.ty = some "audio" ∧ d.audio.getD "" ≠ "")
  | _ => false

/-- True for an audio-bearing event whose Audio field fails base64
decoding, i.e. one that raises an uncaught binascii.Error in the loop. -/
def decodeFails : RawEvent → Bool
  | RawEvent.parsed d =>
      decide (d.ty = some "audio" ∧ d.audio.getD "" ≠ "") &&
        (b64decode (d.audio.getD "")).isNone
  | _ => false

/-- Outcome of the stream-processing part of Predictor.predict
(src/predict.py lines 173-212): ok carries the WAV bytes handed to the
output file, emptyAudio the RuntimeError raised at lines 204-208,
upstream the classified RuntimeError raised by the except block. -/
inductive PredictOutcome where
  | ok (wav : List Nat)
  | emptyAudio (msg : String)
  | upstream (kind : ErrorKind) (msg : String)
deriving DecidableEq

/-- Models src/predict.py lines 173-212: run the collection loop, classify
an escaping exception, raise EmptyAudio when no chunks were collected,
otherwise join the chunks and encode them with pcm_to_wav at the given
sample rate, one channel, two bytes per sample. -/
def predictStream (events : List RawEvent) (sample_rate : Nat) : PredictOutcome :=
  match collectLoop events [] with
  | Except.error e => PredictOutcome.upstream (classifyError e).1 (classifyError e).2
  | Except.ok audio_chunks =>
      if audio_chunks = [] then
        PredictOutcome.emptyAudio
          "No audio data received from upstream API. Please check your credentials and parameters."
      else
        PredictOutcome.ok (pcm_to_wav audio_chunks.flatten sample_rate 1 2)


/-- Whatever the loop returns on success equals the accumulator followed by
the decoded audio of the audio-bearing events in the consumed prefix, in
order. -/
theorem collectLoop_ok_eq (es : List RawEvent) :
    ∀ (acc r : List (List Nat)), collectLoop es acc = Except.ok r →
      r = acc ++ (consumed es).filterMap validAudio := by
  induction es with
  | nil =>
      intro acc r h
      simp only [collectLoop] at h
      injection h with h
      simp [consumed, h.symm]
  | cons e rest ih =>
      intro acc r h
      cases e with
      | other =>
          have h' : collectLoop rest acc = Except.ok r := h
          simpa [consumed, isEndEv, validAudio] using ih acc r h'
      | badJson =>
          have h' : collectLoop rest acc = Except.ok r := h
          simpa [consumed, isEndEv, validAudio] using ih acc r h'
      | parsed d =>
          simp only [collectLoop] at h
          by_cases hg : d.ty = some "audio" ∧ d.audio.getD "" ≠ ""
          · rw [if_pos hg] at h
            split at h
            · cases h
            · rename_i bs hb
              by_cases he : d.isEnd
              · rw [if_pos he] at h
                injection h with h
                simp [consumed, isEndEv, he, validAudio, hg, hb, h.symm]
              · rw [if_neg he] at h
                have := ih (acc ++ [bs]) r h
                simp only [ne_eq, Bool.not_eq_true] at he
                simp [consumed, isEndEv, he, validAudio, hg, hb, this]
          · rw [if_neg hg] at h
            by_cases he : d.isEnd
            · rw [if_pos he] at h
              injection h with h
              simp [consumed, isEndEv, he, validAudio, hg, h.symm]
            · rw [if_neg he] at h
              have := ih acc r h
              simp only [ne_eq, Bool.not_eq_true] at he
              simp [consumed, isEndEv, he, validAudio, hg, this]

/-- Once an end-flagged parsed event is reached, the loop never looks at
the events positioned after it: the result on any continuation equals the
result on the sequence truncated right after the end event. -/
theorem collectLoop_stop (d : EventData) (hd : d.isEnd = true) :
    ∀ (pre post : List RawEvent) (acc : List (List Nat)),
      collectLoop (pre ++ RawEvent.parsed d :: post) acc =
        collectLoop (pre ++ [RawEvent.parsed d]) acc := by
  intro pre
  induction pre with
  | nil =>
      intro post acc
      simp only [List.nil_append, collectLoop]
      by_cases hg : d.ty = some "audio" ∧ d.audio.getD "" ≠ ""
      · rw [if_pos hg, if_pos hg]
        cases b64decode (d.audio.getD "") with
        | none => rfl
        | some bs => simp [hd]
      · rw [if_neg hg, if_neg hg, if_pos hd, if_pos hd]
  | cons e pre ih =>
      intro post acc
      cases e with
      | other =>
          simpa only [List.cons_append, collectLoop] using ih post acc
      | badJson =>
          simpa only [List.cons_append, collectLoop] using ih post acc
      | parsed d' =>
          simp only [List.cons_append, collectLoop]
          by_cases hg : d'.ty = some "audio" ∧ d'.audio.getD "" ≠ ""
          · rw [if_pos hg, if_pos hg]
            cases b64decode (d'.audio.getD "") with
            | none => rfl
            | some bs =>
                by_cases he : d'.isEnd
                · simp [he]
                · simp only [he, if_false]
                  simp only [Bool.not_eq_true] at he
                  simp [he]
                  exact ih post (acc ++ [bs])
          · rw [if_neg hg, if_neg hg]
            by_cases he : d'.isEnd
            · rw [if_pos he, if_pos he]
            · rw [if_neg he, if_neg he]
              exact ih post acc

/-- When no consumed event is audio-bearing, the loop succeeds and the
accumulator is returned unchanged. -/
theorem collectLoop_no_audio (es : List RawEvent) :
    (consumed es).all (fun e => !(isAudioBearing e)) = true →
    ∀ acc, collectLoop es acc = Except.ok acc := by
  induction es with
  | nil => intro _ acc; rfl
  | cons e rest ih =>
      intro h acc
      cases e with
      | other =>
          have hc : consumed (RawEvent.other :: rest) =
              RawEvent.other :: consumed rest := rfl
          rw [hc] at h
          simp only [List.all_cons, Bool.and_eq_true] at h
          exact ih h.2 acc
      | badJson =>
          have hc : consumed (RawEvent.badJson :: rest) =
              RawEvent.badJson :: consumed rest := rfl
          rw [hc] at h
          simp only [List.all_cons, Bool.and_eq_true] at h
          exact ih h.2 acc
      | parsed d =>
          by_cases he : d.isEnd
          · have hc : consumed (RawEvent.parsed d :: rest) = [RawEvent.parsed d] := by
              simp [consumed, isEndEv, he]
            rw [hc] at h
            simp only [List.all_cons, List.all_nil, Bool.and_true,
              Bool.not_eq_true'] at h
            have hg : ¬(d.ty = some "audio" ∧ d.audio.getD "" ≠ "") :=
              of_decide_eq_false h
            simp only [collectLoop, if_neg hg, if_pos he]
          · have hc : consumed (RawEvent.parsed d :: rest) =
                RawEvent.parsed d :: consumed rest := by
              simp [consumed, isEndEv, he]
            rw [hc] at h
            simp only [List.all_cons, Bool.and_eq_true, Bool.not_eq_true'] at h
            have hg : ¬(d.ty = some "audio" ∧ d.audio.getD "" ≠ "") :=
              of_decide_eq_false h.1
            simp only [collectLoop, if_neg hg, if_neg he]
            exact ih h.2 acc

/-- When no event is end-flagged and no audio-bearing event fails to
decode, the loop consumes the whole sequence and succeeds with every
decoded frame appended in order. -/
theorem collectLoop_no_end (es : List RawEvent) :
    es.all (fun e => !(isEndEv e)) = true →
    es.all (fun e => !(decodeFails e)) = true →
    ∀ acc, collectLoop es acc = Except.ok (acc ++ es.filterMap validAudio) := by
  induction es with
  | nil => intro _ _ acc; simp [collectLoop]
  | cons e rest ih =>
      intro h1 h2 acc
      simp only [List.all_cons, Bool.and_eq_true] at h1 h2
      cases e with
      | other =>
          simpa [collectLoop, validAudio] using ih h1.2 h2.2 acc
      | badJson =>
          simpa [collectLoop, validAudio] using ih h1.2 h2.2 acc
      | parsed d =>
          have he : d.isEnd = false := by
            simpa [isEndEv, Bool.not_eq_true'] using h1.1
          by_cases hg : d.ty = some "audio" ∧ d.audio.getD "" ≠ ""
          · have hsome : (b64decode (d.audio.getD "")).isNone = false := by
              have := h2.1
              simp only [decodeFails, Bool.not_eq_true', Bool.and_eq_false_iff,
                decide_eq_false_iff_not] at this
              rcases this with hc | hc
              · exact absurd hg hc
              · exact hc
            rcases hb : b64decode (d.audio.getD "") with _ | bs
            · rw [hb] at hsome; simp at hsome
            · simp only [collectLoop, if_pos hg, hb, he, if_false,
                Bool.false_eq_true]
              rw [ih h1.2 h2.2 (acc ++ [bs])]
              simp [validAudio, hg, hb]
          · simp only [collectLoop, if_neg hg, he, Bool.false_eq_true, if_false]
            rw [ih h1.2 h2.2 acc]
            simp [validAudio, hg]

/-- Reading back a 32-bit little-endian field recovers the value when it
fits in 32 bits. -/
theorem readLE_le4 (x : Nat) (h : x < 4294967296) : readLE (le4 x) = x := by
  simp only [le4, readLE]
  omega

/-- Reading back a 16-bit little-endian field recovers the value when it
fits in 16 bits. -/
theorem readLE_le2 (x : Nat) (h : x < 65536) : readLE (le2 x) = x := by
  simp only [le2, readLE]
  omega

/-- C1: for every finite sequence of raw stream events on which the loop
completes normally, the chunk list equals the decoded contents of the
audio-bearing events of the consumed prefix, strictly in arrival order
with nothing duplicated or dropped, and hence the aggregated payload
handed to pcm_to_wav is their byte concatenation; interleaved other or
badJson events contribute nothing and change nothing. -/
theorem frames_ordered_exact (es : List RawEvent) (chunks : List (List Nat))
    (h : collectLoop es [] = Except.ok chunks) :
    chunks = (consumed es).filterMap validAudio ∧
    chunks.flatten = ((consumed es).filterMap validAudio).flatten := by
  have hc := collectLoop_ok_eq es [] chunks h
  simp only [List.nil_append] at hc
  exact ⟨hc, by rw [hc]⟩

/-- Witness for C1 at a concrete stream: a skipped item, the frame ABC, a
malformed item, the frame DEF, then the end signal aggregate to exactly
the two frames in order. -/
theorem frames_ordered_exact_witness :
    ([[65, 66, 67], [68, 69, 70]] : List (List Nat)) =
      (consumed [RawEvent.other, RawEvent.parsed ⟨some "audio", some "QUJD", false⟩,
        RawEvent.badJson, RawEvent.parsed ⟨some "audio", some "REVG", false⟩,
        RawEvent.parsed ⟨none, none, true⟩]).filterMap validAudio :=
  (frames_ordered_exact
    [RawEvent.other, RawEvent.parsed ⟨some "audio", some "QUJD", false⟩,
     RawEvent.badJson, RawEvent.parsed ⟨some "audio", some "REVG", false⟩,
     RawEvent.parsed ⟨none, none, true⟩]
    [[65, 66, 67], [68, 69, 70]] rfl).1

/-- C5: an event sequence whose consumed prefix contains no audio-bearing
event, whatever other event shapes it contains, makes predictStream raise
the empty-audio error, and no WAV container is produced. -/
theorem empty_stream_reports_empty_audio (es : List RawEvent) (sr : Nat)
    (h : (consumed es).all (fun e => !(isAudioBearing e)) = true) :
    predictStream es sr =
      PredictOutcome.emptyAudio
        "No audio data received from upstream API. Please check your credentials and parameters." := by
  have hc := collectLoop_no_audio es h []
  simp [predictStream, hc]

/-- Witness for C5 at a concrete stream with malformed, non-audio and end
events but zero audio frames. -/
theorem empty_stream_reports_empty_audio_witness :
    predictStream
      [RawEvent.badJson, RawEvent.other, RawEvent.parsed ⟨some "text", none, false⟩,
       RawEvent.parsed ⟨none, none, true⟩] 24000 =
      PredictOutcome.emptyAudio
        "No audio data received from upstream API. Please check your credentials and parameters." :=
  empty_stream_reports_empty_audio
    [RawEvent.badJson, RawEvent.other, RawEvent.parsed ⟨some "text", none, false⟩,
     RawEvent.parsed ⟨none, none, true⟩] 24000 (by decide)

/-- C7: after an end-flagged event is observed the loop stops: the result
on any continuation of the stream equals the result on the stream cut
right after that event, so no later event is pulled or contributes
bytes. -/
theorem end_signal_stops_stream (pre post : List RawEvent) (d : EventData)
    (hd : d.isEnd = true) :
    collectLoop (pre ++ RawEvent.parsed d :: post) [] =
      collectLoop (pre ++ [RawEvent.parsed d]) [] :=
  collectLoop_stop d hd pre post []

/-- Witness for C7 at a concrete stream: an audio frame after the end
signal is ignored. -/
theorem end_signal_stops_stream_witness :
    collectLoop
      ([RawEvent.parsed ⟨some "audio", some "QUJD", false⟩] ++
        RawEvent.parsed ⟨none, none, true⟩ ::
          [RawEvent.parsed ⟨some "audio", some "REVG", false⟩]) [] =
      collectLoop
        ([RawEvent.parsed ⟨some "audio", some "QUJD", false⟩] ++
          [RawEvent.parsed ⟨none, none, true⟩]) [] :=
  end_signal_stops_stream
    [RawEvent.parsed ⟨some "audio", some "QUJD", false⟩]
    [RawEvent.parsed ⟨some "audio", some "REVG", false⟩]
    ⟨none, none, true⟩ rfl

/-- C8: a stream exhausted with no end signal (and no undecodable audio
event) still finalizes with every collected frame, and when at least one
frame was collected predictStream returns the WAV container built from
exactly those frames, not an error. -/
theorem exhaustion_without_end_finalizes (es : List RawEvent)
    (h1 : es.all (fun e => !(isEndEv e)) = true)
    (h2 : es.all (fun e => !(decodeFails e)) = true) :
    collectLoop es [] = Except.ok (es.filterMap validAudio) ∧
    (es.filterMap validAudio ≠ [] → ∀ sr,
      predictStream es sr =
        PredictOutcome.ok (pcm_to_wav (es.filterMap validAudio).flatten sr 1 2)) := by
  have hc := collectLoop_no_end es h1 h2 []
  simp only [List.nil_append] at hc
  refine ⟨hc, fun hne sr => ?_⟩
  simp [predictStream, hc, hne]

/-- Witness for C8: two valid frames and a malformed item, no end signal,
yield the WAV container of the two frames. -/
theorem exhaustion_without_end_finalizes_witness :
    predictStream
      [RawEvent.parsed ⟨some "audio", some "QUJD", false⟩, RawEvent.badJson,
       RawEvent.parsed ⟨some "audio", some "REVG", false⟩] 24000 =
      PredictOutcome.ok
        (pcm_to_wav
          ([RawEvent.parsed ⟨some "audio", some "QUJD", false⟩, RawEvent.badJson,
            RawEvent.parsed ⟨some "audio", some "REVG", false⟩].filterMap
              validAudio).flatten 24000 1 2) :=
  (exhaustion_without_end_finalizes
    [RawEvent.parsed ⟨some "audio", some "QUJD", false⟩, RawEvent.badJson,
     RawEvent.parsed ⟨some "audio", some "REVG", false⟩]
    (by decide) (by decide)).2 (by decide) 24000

/-- C10: an event carrying both an audio frame and the end flag has its
own decoded audio appended to the accumulator before the loop stops, so
the end-carrying event's audio is part of the final payload. -/
theorem end_event_own_audio_kept (d : EventData) (es : List RawEvent)
    (acc : List (List Nat)) (a : String) (bs : List Nat)
    (hend : d.isEnd = true) (hty : d.ty = some "audio") (ha : d.audio = some a)
    (hne : a ≠ "") (hdec : b64decode a = some bs) :
    collectLoop (RawEvent.parsed d :: es) acc = Except.ok (acc ++ [bs]) := by
  have hget : d.audio.getD "" = a := by rw [ha]; rfl
  have hg : d.ty = some "audio" ∧ d.audio.getD "" ≠ "" := ⟨hty, by rw [hget]; exact hne⟩
  simp only [collectLoop, if_pos hg, hget, hdec, if_pos hend]
  rw [if_pos (show d.ty = some "audio" ∧ a ≠ "" from ⟨hty, hne⟩)]

/-- Witness for C10: a final event carrying both the frame ABC and the end
flag contributes its frame before stopping. -/
theorem end_event_own_audio_kept_witness :
    collectLoop
      [RawEvent.parsed ⟨some "audio", some "QUJD", true⟩,
       RawEvent.parsed ⟨some "audio", some "REVG", false⟩] [[1]] =
      Except.ok [[1], [65, 66, 67]] :=
  end_event_own_audio_kept ⟨some "audio", some "QUJD", true⟩
    [RawEvent.parsed ⟨some "audio", some "REVG", false⟩]
    [[1]] "QUJD" [65, 66, 67] rfl rfl rfl (by decide) rfl

/-- C9: every fault signal containing the authentication-failure marker
anywhere is classified AuthFailure with a fixed message independent of the
signal, so no credential substring of the signal is reproduced. -/
theorem auth_marker_fixed_message (s : String)
    (h : containsSub s.toList ("AuthFailure".toList) = true) :
    classifyError s =
      (ErrorKind.authFailure,
       "Authentication failed. Please check your SecretId, SecretKey, and SdkAppId.") := by
  unfold classifyError
  rw [if_pos h]

/-- Witness for C9 at a concrete signal embedding a credential-looking
token next to the marker. -/
theorem auth_marker_fixed_message_witness :
    classifyError "TencentCloudSDKException: AuthFailure.SignatureFailure sig=AKIDexample" =
      (ErrorKind.authFailure,
       "Authentication failed. Please check your SecretId, SecretKey, and SdkAppId.") :=
  auth_marker_fixed_message
    "TencentCloudSDKException: AuthFailure.SignatureFailure sig=AKIDexample" (by decide)

/-- C4 counterexample: a fault signal matching no marker and embedding a
credential is classified UnknownUpstreamError, yet the produced message
reproduces the credential substring verbatim, so the message does not
exclude credential material and the copy is not sanitized. -/
theorem unknown_error_reproduces_credential :
    containsSub ("upstream failure: SecretKey=AKID1234SECRET".toList)
        ("AKID1234SECRET".toList) = true ∧
    classifyError "upstream failure: SecretKey=AKID1234SECRET" =
      (ErrorKind.unknownUpstreamError,
       "TTS API error: upstream failure: SecretKey=AKID1234SECRET") ∧
    containsSub ("TTS API error: upstream failure: SecretKey=AKID1234SECRET".toList)
        ("AKID1234SECRET".toList) = true :=
  ⟨by decide, by decide, by decide⟩

/-- C4 amended: a signal matching no authentication, invalid-parameter or
rate-limit marker is classified UnknownUpstreamError carrying the original
message verbatim behind a fixed prefix; the copy is not sanitized, so any
credential material embedded in the signal reappears in the message. -/
theorem unknown_error_verbatim_copy (s : String)
    (h1 : containsSub s.toList ("AuthFailure".toList) = false)
    (h2 : containsSub s.toList ("InvalidParameter".toList) = false)
    (h3 : containsSub s.toList ("RequestLimitExceeded".toList) = false) :
    classifyError s = (ErrorKind.unknownUpstreamError, "TTS API error: " ++ s) := by
  have h1' : ¬(containsSub s.toList ("AuthFailure".toList) = true) := by
    rw [h1]; simp
  have h2' : ¬(containsSub s.toList ("InvalidParameter".toList) = true) := by
    rw [h2]; simp
  have h3' : ¬(containsSub s.toList ("RequestLimitExceeded".toList) = true) := by
    rw [h3]; simp
  unfold classifyError
  rw [if_neg h1', if_neg h2', if_neg h3']

/-- Witness for the amended C4 at a concrete marker-free signal. -/
theorem unknown_error_verbatim_copy_witness :
    classifyError "connection reset by peer" =
      (ErrorKind.unknownUpstreamError, "TTS API error: " ++ "connection reset by peer") :=
  unknown_error_verbatim_copy "connection reset by peer"
    (by decide) (by decide) (by decide)

/-- C3: an event whose payload parses with Type audio and an Audio value
that fails base64 decoding is not absorbed: b64decode raises (modelled
none), the loop aborts before any later event, and predictStream raises
the classified TTS API error instead of continuing, because binascii.Error
is missing from the except tuple at src/predict.py line 184. -/
theorem undecodable_audio_aborts_stream :
    b64decode "abc" = none ∧
    collectLoop
      [RawEvent.parsed ⟨some "audio", some "abc", false⟩,
       RawEvent.parsed ⟨some "audio", some "QUJD", false⟩,
       RawEvent.parsed ⟨none, none, true⟩] [] =
      Except.error "Incorrect padding" ∧
    predictStream
      [RawEvent.parsed ⟨some "audio", some "abc", false⟩,
       RawEvent.parsed ⟨some "audio", some "QUJD", false⟩,
       RawEvent.parsed ⟨none, none, true⟩] 24000 =
      PredictOutcome.upstream ErrorKind.unknownUpstreamError
        "TTS API error: Incorrect padding" :=
  ⟨rfl, rfl, rfl⟩

set_option maxHeartbeats 1600000 in
/-- C2: for every payload and every positive sample rate whose 32-bit
fields fit, the encoder output for one channel and two-byte samples is
exactly 44 + n bytes: the RIFF marker, a total-size field decoding to
36 + n, the WAVE marker, a 24-byte format sub-block declaring format
tag 1, one channel, the given sample rate, byte rate twice the sample
rate, block align 2 and 16 bits per sample, then a data sub-block whose
declared size decodes to n followed by the payload. -/
theorem wav_header_layout (pcm : List Nat) (sr : Nat)
    (hn : pcm.length + 36 < 4294967296) (hs : sr * 2 < 4294967296)
    (hp : 0 < sr) :
    (pcm_to_wav pcm sr 1 2).length = 44 + pcm.length ∧
    (pcm_to_wav pcm sr 1 2).take 4 = [82, 73, 70, 70] ∧
    readLE (((pcm_to_wav pcm sr 1 2).drop 4).take 4) = 36 + pcm.length ∧
    ((pcm_to_wav pcm sr 1 2).drop 8).take 4 = [87, 65, 86, 69] ∧
    ((pcm_to_wav pcm sr 1 2).drop 12).take 4 = [102, 109, 116, 32] ∧
    readLE (((pcm_to_wav pcm sr 1 2).drop 16).take 4) = 16 ∧
    readLE (((pcm_to_wav pcm sr 1 2).drop 20).take 2) = 1 ∧
    readLE (((pcm_to_wav pcm sr 1 2).drop 22).take 2) = 1 ∧
    readLE (((pcm_to_wav pcm sr 1 2).drop 24).take 4) = sr ∧
    readLE (((pcm_to_wav pcm sr 1 2).drop 28).take 4) = sr * 2 ∧
    readLE (((pcm_to_wav pcm sr 1 2).drop 32).take 2) = 2 ∧
    readLE (((pcm_to_wav pcm sr 1 2).drop 34).take 2) = 16 ∧
    ((pcm_to_wav pcm sr 1 2).drop 36).take 4 = [100, 97, 116, 97] ∧
    readLE (((pcm_to_wav pcm sr 1 2).drop 40).take 4) = pcm.length := by
  have e1 : ((pcm_to_wav pcm sr 1 2).drop 4).take 4 = le4 (36 + pcm.length) := rfl
  have e2 : ((pcm_to_wav pcm sr 1 2).drop 16).take 4 = le4 16 := rfl
  have e3 : ((pcm_to_wav pcm sr 1 2).drop 20).take 2 = le2 1 := rfl
  have e4 : ((pcm_to_wav pcm sr 1 2).drop 22).take 2 = le2 1 := rfl
  have e5 : ((pcm_to_wav pcm sr 1 2).drop 24).take 4 = le4 sr := rfl
  have e6 : ((pcm_to_wav pcm sr 1 2).drop 28).take 4 = le4 (sr * 1 * 2) := rfl
  have e7 : ((pcm_to_wav pcm sr 1 2).drop 32).take 2 = le2 (1 * 2) := rfl
  have e8 : ((pcm_to_wav pcm sr 1 2).drop 34).take 2 = le2 (2 * 8) := rfl
  have e9 : ((pcm_to_wav pcm sr 1 2).drop 40).take 4 = le4 pcm.length := rfl
  refine ⟨?_, rfl, ?_, rfl, rfl, ?_, ?_, ?_, ?_, ?_, ?_, ?_, rfl, ?_⟩
  · simp [pcm_to_wav, le4, le2]
    omega
  · rw [e1, readLE_le4 _ (by omega)]
  · rw [e2, readLE_le4 _ (by omega)]
  · rw [e3, readLE_le2 _ (by omega)]
  · rw [e4, readLE_le2 _ (by omega)]
  · rw [e5, readLE_le4 _ (by omega)]
  · rw [e6, readLE_le4 _ (by omega)]
    omega
  · rw [e7, readLE_le2 _ (by omega)]
  · rw [e8, readLE_le2 _ (by omega)]
  · rw [e9, readLE_le4 _ (by omega)]

/-- Witness for C2 at the 8-byte payload of Scenario A: a 52-byte
container whose total-size field decodes to 44 and whose data-size field
decodes to 8. -/
theorem wav_header_layout_witness :
    (pcm_to_wav [65, 66, 67, 68, 69, 70, 71, 72] 24000 1 2).length = 52 ∧
    readLE (((pcm_to_wav [65, 66, 67, 68, 69, 70, 71, 72] 24000 1 2).drop 4).take 4) = 44 ∧
    readLE (((pcm_to_wav [65, 66, 67, 68, 69, 70, 71, 72] 24000 1 2).drop 40).take 4) = 8 := by
  have h := wav_header_layout [65, 66, 67, 68, 69, 70, 71, 72] 24000
    (by decide) (by decide) (by decide)
  refine ⟨?_, ?_, ?_⟩
  · simpa using h.1
  · simpa using h.2.2.1
  · simpa using h.2.2.2.2.2.2.2.2.2.2.2.2.2

/-- C6: for every payload, of any byte length including odd lengths, the
data region of the container re-extracted at offset 44 is the original
payload byte for byte, and the container adds exactly the 44 header bytes,
so nothing is truncated and nothing is padded. -/
theorem wav_data_roundtrip (pcm : List Nat) (sr : Nat) :
    (pcm_to_wav pcm sr 1 2).drop 44 = pcm ∧
    (pcm_to_wav pcm sr 1 2).length = 44 + pcm.length := by
  constructor
  · rfl
  · simp [pcm_to_wav, le4, le2]
    omega
